import Mathlib

/-
Verification of the `cats` repository: a Rust library providing the
polymorphic identity function (src/identity.rs) and function composition
(src/composition.rs), with a duplicate of both in src/main.rs.  The
definitions below are shallow embeddings of those Rust functions; the
theorems settle the claims of the specification.
-/

namespace Cats

/-- Embedding of `pub fn id<T>(x: T) -> T { x }` from src/identity.rs. -/
def id {T : Type u} (x : T) : T := x

/-- Embedding of `pub fn compose<A, B, C, F, G>(f: F, g: G) -> impl Fn(A) -> C`
from src/composition.rs, whose returned closure is `move |x| g(f(x))`. -/
def compose {A : Type u} {B : Type v} {C : Type w}
    (f : A → B) (g : B → C) : A → C :=
  fun x => g (f x)

/-- Evaluation of the composed closure body `g(f(x))` when the user-supplied
functions may fail, modelling a Rust panic or error as an `Except.error`
value.  Under strict call-by-value semantics `f x` is evaluated first; a
failure there aborts the call before `g` runs, and a failure inside `g`
aborts the call afterwards.  The source body contains no catch, wrap or
replace of a failure. -/
def composeE {A : Type u} {B : Type v} {C : Type w} {E : Type z}
    (f : A → Except E B) (g : B → Except E C) : A → Except E C :=
  fun x =>
    match f x with
    | Except.error e => Except.error e
    | Except.ok b => g b

/-- Evaluation of the body of `id`, which is the bare variable `x`: under the
same failure semantics, returning an already evaluated value cannot fail. -/
def idE {T : Type u} {E : Type z} (x : T) : Except E T :=
  Except.ok x

namespace MainRs

/-- Embedding of the duplicate `pub fn id<T>(x: T) -> T { x }` found in
src/main.rs (lines 9-11). -/
def id {T : Type u} (x : T) : T := x

/-- Embedding of the duplicate `compose` found in src/main.rs (lines 14-21),
whose returned closure is likewise `move |x| g(f(x))`. -/
def compose {A : Type u} {B : Type v} {C : Type w}
    (f : A → B) (g : B → C) : A → C :=
  fun x => g (f x)

end MainRs

/-- C1: for every pair of unary functions f : A → B and g : B → C and every
input x : A, the function value returned by compose f g, invoked at x,
returns g (f x): f is applied first, then g to its result. -/
theorem compose_applies_f_then_g {A : Type u} {B : Type v} {C : Type w}
    (f : A → B) (g : B → C) (x : A) :
    compose f g x = g (f x) := rfl

/-- C2: for every type T and every value x : T, id x returns exactly x,
unchanged, for an arbitrary type with no constraints. -/
theorem id_returns_input {T : Type u} (x : T) : id x = x := rfl

/-- C3: composition is associative: for all unary functions f, g, h with
compatible types and every input x,
compose (compose f g) h applied at x equals compose f (compose g h) at x. -/
theorem compose_assoc {A : Type u} {B : Type v} {C : Type w} {D : Type z}
    (f : A → B) (g : B → C) (h : C → D) (x : A) :
    compose (compose f g) h x = compose f (compose g h) x := rfl

/-- C4: left identity law: for every f : A → B and every x : A,
compose f id applied at x equals f x. -/
theorem compose_left_identity {A : Type u} {B : Type v}
    (f : A → B) (x : A) :
    compose f id x = f x := rfl

/-- C5: right identity law: for every f : A → B and every x : A,
compose id f applied at x equals f x. -/
theorem compose_right_identity {A : Type u} {B : Type v}
    (f : A → B) (x : A) :
    compose id f x = f x := rfl

/-- C6: identity self-composition: for every x,
compose id id applied at x equals x. -/
theorem compose_id_id {A : Type u} (x : A) :
    compose id id x = x := rfl

/-- C7: concrete scenario: with f the function x ↦ x + 1 and g the function
x ↦ x * 2, compose f g applied to 5 returns 12, i.e. g is applied to the
result of f, not the other way round. -/
theorem compose_concrete_scenario :
    compose (fun x : Int => x + 1) (fun x : Int => x * 2) 5 = 12 := by
  decide

/-- C8: error propagation: if f fails at x then the composed call fails with
exactly the same error and g is never the source of the reported error; if f
succeeds with b and g fails at b, the composed call fails with exactly the
error of g.  Composition never catches, wraps, suppresses or replaces a
failure. -/
theorem composeE_propagates_errors {A : Type u} {B : Type v} {C : Type w}
    {E : Type z} (f : A → Except E B) (g : B → Except E C) (x : A) (e : E) :
    (f x = Except.error e → composeE f g x = Except.error e) ∧
    (∀ b : B, f x = Except.ok b → g b = Except.error e →
      composeE f g x = Except.error e) := by
  constructor
  · intro hf
    simp [composeE, hf]
  · intro b hf hg
    simp [composeE, hf, hg]

/-- Witness for C8: with f failing at input 0 with error 7, the composed
call fails with error 7. -/
theorem composeE_propagates_errors_witness :
    composeE (fun _ : Nat => (Except.error 7 : Except Nat Nat))
      (fun b : Nat => (Except.ok (b + 1) : Except Nat Nat)) 0 =
      Except.error 7 :=
  (composeE_propagates_errors
    (fun _ : Nat => (Except.error 7 : Except Nat Nat))
    (fun b : Nat => (Except.ok (b + 1) : Except Nat Nat)) 0 7).1 rfl

/-- C9: the identity operation is total and cannot fail: for every input of
every type, evaluating the body of id returns normally with the input itself
and never produces an error outcome. -/
theorem idE_never_fails {T : Type u} {E : Type z} (x : T) :
    idE (E := E) x = Except.ok x ∧ ∀ e : E, idE (E := E) x ≠ Except.error e := by
  refine ⟨rfl, ?_⟩
  intro e h
  simp [idE] at h

/-- C10: the id and compose functions duplicated in main.rs are extensionally
equal to the library versions in identity.rs and composition.rs: for every x,
the id of main.rs applied at x equals the id of identity.rs at x, and for all
f, g, x, the compose of main.rs applied at f, g and x equals the compose of
composition.rs there. -/
theorem mainrs_matches_library {A : Type u} {B : Type v} {C : Type w}
    (f : A → B) (g : B → C) (x : A) (y : A) :
    MainRs.id y = id y ∧ MainRs.compose f g x = compose f g x :=
  ⟨rfl, rfl⟩

end Cats
